import Mathlib

/-!
Verification development for the hallucination-prevention claim pipeline.

The backend is embedded shallowly: Python dictionaries carrying claims are
structures, entity types and confidence tiers are the literal strings the code
compares, floats are exact rationals, and the per-session mutable store of the
contradiction detector is a function from session ids to optional fact lists.
Each definition mirrors one Python function of the backend and is named after
it.  Regular-expression operations of the source are embedded as structural
character-list scans with the same leftmost/greedy semantics.
-/

namespace HalluPrev

/-! ## Python string primitives

Helpers mirroring the Python string builtins the backend uses:
`str.lower`, `str.split()` (whitespace split dropping empty words),
`str.strip`, substring membership (the `in` operator), and character
filtering used for `re.sub` character-class deletions. -/

/-- Python `str.lower` (the source only ever lowercases ASCII text). -/
def pyLower (s : String) : String := String.mk (s.toList.map Char.toLower)

/-- Accumulator pass of whitespace splitting: words are maximal runs of
non-whitespace characters, empty words are never produced. -/
def wordsAux : List Char → List Char → List (List Char)
  | [], acc => if acc = [] then [] else [acc.reverse]
  | c :: cs, acc =>
    if c.isWhitespace then
      if acc = [] then wordsAux cs [] else acc.reverse :: wordsAux cs []
    else wordsAux cs (c :: acc)

/-- Python `str.split()` with no separator: split on whitespace runs and drop
empty strings. -/
def pyWords (s : String) : List String := (wordsAux s.toList []).map String.mk

/-- Python `str.strip()`: drop leading and trailing whitespace. -/
def pyStrip (s : String) : String :=
  String.mk (((s.toList.dropWhile Char.isWhitespace).reverse.dropWhile
    Char.isWhitespace).reverse)

/-- Is `needle` a contiguous sublist of `hay`?  Embeds the Python `in`
operator on strings. -/
def isSubstr (needle : List Char) : List Char → Bool
  | [] => needle.isPrefixOf []
  | c :: cs => needle.isPrefixOf (c :: cs) || isSubstr needle cs

/-- Python `needle in hay` on strings. -/
def strContains (hay needle : String) : Bool := isSubstr needle.toList hay.toList

/-! ## Numeric token parsing

The source extracts numbers with the regex `[\d.]+` and converts the match
with Python `float(...)`.  A match is a maximal run of digit or dot
characters; `float` succeeds exactly when the run has at most one dot and at
least one digit, and then denotes the decimal value the characters spell
(embedded as an exact rational instead of a binary float). -/

/-- Characters matched by the `[\d.]+` character class. -/
def isNumChar (c : Char) : Bool := c.isDigit || c = '.'

/-- Accumulator pass collecting maximal `[\d.]+` runs in order. -/
def numTokensAux : List Char → List Char → List (List Char)
  | [], acc => if acc = [] then [] else [acc.reverse]
  | c :: cs, acc =>
    if isNumChar c then numTokensAux cs (c :: acc)
    else if acc = [] then numTokensAux cs [] else acc.reverse :: numTokensAux cs []

/-- All `re.findall` matches of `[\d.]+`, leftmost first. -/
def numTokens (l : List Char) : List (List Char) := numTokensAux l []

/-- The `re.search` match of `[\d.]+`: the leftmost maximal run. -/
def firstNumToken (l : List Char) : Option (List Char) := (numTokens l).head?

/-- Digit characters to the natural number they spell (empty list gives 0,
matching the integer part of a float literal such as `.5`). -/
def digitsToNat (l : List Char) : Nat := l.foldl (fun a c => 10 * a + (c.toNat - 48)) 0

/-- Python `float` on a `[\d.]+` token: defined when the token has at most
one dot and at least one digit; the value is the spelled decimal, as an
exact rational. -/
def parseFloat (tok : List Char) : Option ℚ :=
  if (tok.filter (fun c => c = '.')).length ≤ 1 && tok.any Char.isDigit then
    some ((digitsToNat (tok.takeWhile (fun c => c ≠ '.')) : ℚ) +
      (digitsToNat ((tok.dropWhile (fun c => c ≠ '.')).drop 1) : ℚ) /
        10 ^ ((tok.dropWhile (fun c => c ≠ '.')).drop 1).length)
  else none

/-! ## Data model

`Fact` is the claim dictionary built by the extractor (the keys the detector
and verifier read); entity types and tiers stay the strings the code
compares.  `Contradiction` carries the keys of the detector output
dictionaries; the numeric and date variants add value and difference keys,
which the entity variant omits, hence the optional fields.  The `difference`
field holds the raw quantity (percent, or years apart) that the source
renders into its one-decimal description string. -/

structure Fact where
  entity : String
  entity_type : String
  sentence : String
deriving DecidableEq

structure Contradiction where
  type : String
  severity : String
  previous_claim : String
  current_claim : String
  previous_value : Option String
  current_value : Option String
  difference : Option ℚ
  message : String
deriving DecidableEq

/-! ## ContradictionDetector -/

/-- `ContradictionDetector._extract_number`: strip commas, pick the
thousand/million/billion multiplier by substring test on the lowercased
text, then parse the leftmost `[\d.]+` run with `float`; any parse failure
yields `none`. -/
def extract_number (text : String) : Option ℚ :=
  let text_clean := text.toList.filter (fun c => c ≠ ',')
  let low := (pyLower text).toList
  let multiplier : ℕ :=
    if isSubstr ("billion".toList) low then 1000000000
    else if isSubstr ("million".toList) low then 1000000
    else if isSubstr ("thousand".toList) low then 1000
    else 1
  match firstNumToken text_clean with
  | none => none
  | some tok => (parseFloat tok).map (fun v => v * (multiplier : ℚ))

/-- Leftmost `\d{4}` match: scan for the first position opening four
consecutive digits and read them as a year. -/
def yearScan : List Char → Option ℕ
  | a :: b :: c :: d :: rest =>
    if a.isDigit && b.isDigit && c.isDigit && d.isDigit then
      some (digitsToNat [a, b, c, d])
    else yearScan (b :: c :: d :: rest)
  | _ => none

/-- `ContradictionDetector._extract_year`. -/
def extract_year (text : String) : Option ℕ := yearScan text.toList

/-- `ContradictionDetector._same_subject`: at least 2 distinct shared words
among the first five lowercased words of each sentence. -/
def same_subject (sentence1 sentence2 : String) : Bool :=
  let words1 := (pyWords (pyLower sentence1)).take 5
  let words2 := (pyWords (pyLower sentence2)).take 5
  decide (2 ≤ ((words1.filter (fun w => words2.contains w)).dedup).length)

/-- `ContradictionDetector._similar_text`: word-set overlap ratio over the
smaller set exceeds one half. -/
def similar_text (text1 text2 : String) : Bool :=
  let words1 := (pyWords (pyLower text1)).dedup
  let words2 := (pyWords (pyLower text2)).dedup
  if words1 = [] || words2 = [] then false
  else
    decide ((((words1.filter (fun w => words2.contains w)).length : ℚ) /
      (min words1.length words2.length : ℕ)) > 0.5)

/-- `ContradictionDetector._check_numeric_contradiction`: parse both
entities, require the same-subject heuristic, then flag when the relative
difference in percent exceeds 20, with severity high above 50. -/
def check_numeric_contradiction (fact1 fact2 : Fact) : Option Contradiction :=
  match extract_number fact1.entity, extract_number fact2.entity with
  | some num1, some num2 =>
    if !same_subject fact1.sentence fact2.sentence then none
    else
      let diff_percent : ℚ := |num1 - num2| / max num1 num2 * 100
      if 20 < diff_percent then
        some
          { type := "numeric_contradiction"
            severity := if 50 < diff_percent then "high" else "medium"
            previous_claim := fact2.sentence
            current_claim := fact1.sentence
            previous_value := some fact2.entity
            current_value := some fact1.entity
            difference := some diff_percent
            message := "Contradiction detected: Different values for the same claim" }
      else none
  | _, _ => none

/-- `ContradictionDetector._check_date_contradiction`: years must both parse
and differ, the subjects must overlap; the contradiction is unconditionally
high severity with the year gap as difference. -/
def check_date_contradiction (fact1 fact2 : Fact) : Option Contradiction :=
  match extract_year fact1.entity, extract_year fact2.entity with
  | some year1, some year2 =>
    if year1 = year2 then none
    else if !same_subject fact1.sentence fact2.sentence then none
    else
      some
        { type := "date_contradiction"
          severity := "high"
          previous_claim := fact2.sentence
          current_claim := fact1.sentence
          previous_value := some fact2.entity
          current_value := some fact1.entity
          difference := some |(year1 : ℚ) - (year2 : ℚ)|
          message := "Contradiction: Different dates for the same event" }
  | _, _ => none

/-! ## The X-is-Y pattern of `_extract_is_statement`

`re.search` with the pattern of a leading capitalized phrase, a literal
lowercase `is`, and a nonempty remainder of the line.  The scan tries each
start position left to right; the capitalized-phrase star is greedy and
backtracks word by word when the tail cannot match, exactly as the regex
engine does.  The backtracking between the final whitespace run and the
dot-plus group is also mirrored: the dot class matches any character except
a newline. -/

/-- Match `[A-Z][a-z]+` at the head: one ASCII uppercase letter followed by
a maximal nonempty run of ASCII lowercase letters.  Returns the matched
word and the remaining characters. -/
def capWordAt : List Char → Option (List Char × List Char)
  | c :: d :: rest =>
    if ('A' ≤ c && c ≤ 'Z') && ('a' ≤ d && d ≤ 'z') then
      some (c :: d :: rest.takeWhile (fun e => 'a' ≤ e && e ≤ 'z'),
        rest.dropWhile (fun e => 'a' ≤ e && e ≤ 'z'))
    else none
  | _ => none

/-- Match `\s+(.+)` with the regex backtracking order after at least one
whitespace character was consumed: prefer to consume further whitespace,
and otherwise let the dot-plus group start here if the character is not a
newline. -/
def wsDotPlusMore : List Char → Option (List Char)
  | [] => none
  | c :: cs =>
    if c.isWhitespace then
      match wsDotPlusMore cs with
      | some g => some g
      | none => if c = '\n' then none else some (c :: cs.takeWhile (fun e => e ≠ '\n'))
    else if c = '\n' then none else some (c :: cs.takeWhile (fun e => e ≠ '\n'))

/-- Match `\s+(.+)`: at least one whitespace character, then a nonempty run
of non-newline characters, returning the captured run. -/
def wsDotPlus : List Char → Option (List Char)
  | [] => none
  | c :: cs => if c.isWhitespace then wsDotPlusMore cs else none

/-- Match `\s+is\s+(.+)` at the head, returning the captured claim text. -/
def isClaimTail (l : List Char) : Option (List Char) :=
  let ws := l.takeWhile Char.isWhitespace
  if ws = [] then none
  else
    match l.dropWhile Char.isWhitespace with
    | a :: b :: rest => if a = 'i' && b = 's' then wsDotPlus rest else none
    | _ => none

/-- Greedy star `(?:\s+[A-Z][a-z]+)*` followed by the `is` tail, with
word-by-word backtracking.  Each extension consumes at least two
characters, so `rem.length` is always enough fuel and the fuel-out branch
coincides with the no-extension branch. -/
def isStmtExt : Nat → List Char → List Char → Option (List Char × List Char)
  | 0, acc, rem => (isClaimTail rem).map (fun g => (acc, g))
  | fuel + 1, acc, rem =>
    let ws := rem.takeWhile Char.isWhitespace
    if ws = [] then (isClaimTail rem).map (fun g => (acc, g))
    else
      match capWordAt (rem.dropWhile Char.isWhitespace) with
      | some (w, rest) =>
        match isStmtExt fuel (acc ++ ws ++ w) rest with
        | some r => some r
        | none => (isClaimTail rem).map (fun g => (acc, g))
      | none => (isClaimTail rem).map (fun g => (acc, g))

/-- Match the whole `X is Y` pattern at the head of `l`. -/
def isStmtAt (l : List Char) : Option (List Char × List Char) :=
  match capWordAt l with
  | none => none
  | some (w, rest) => isStmtExt rest.length w rest

/-- Leftmost `re.search` scan for the `X is Y` pattern. -/
def searchIsStmt : List Char → Option (List Char × List Char)
  | [] => none
  | c :: cs =>
    match isStmtAt (c :: cs) with
    | some r => some r
    | none => searchIsStmt cs

/-- `ContradictionDetector._extract_is_statement`. -/
def extract_is_statement (sentence : String) : Option (String × String) :=
  (searchIsStmt sentence.toList).map (fun p => (String.mk p.1, String.mk p.2))

/-- `ContradictionDetector._check_entity_contradiction`: both sentences
must match the `X is Y` pattern with similar subjects but dissimilar
claims.  The source dictionary for this kind omits the value and
difference keys. -/
def check_entity_contradiction (fact1 fact2 : Fact) : Option Contradiction :=
  match extract_is_statement fact1.sentence, extract_is_statement fact2.sentence with
  | some (subject1, claim1), some (subject2, claim2) =>
    if similar_text subject1 subject2 && !similar_text claim1 claim2 then
      some
        { type := "entity_contradiction"
          severity := "high"
          previous_claim := fact2.sentence
          current_claim := fact1.sentence
          previous_value := none
          current_value := none
          difference := none
          message := "Contradiction: Different information about " ++ subject1 }
    else none
  | _, _ => none

/-- The numeric branch of `_check_fact_pair`. -/
def numericTypes : List String := ["CARDINAL", "QUANTITY", "MONEY", "MEASUREMENT", "POPULATION"]

/-- The entity branch of `_check_fact_pair`. -/
def entityContradictionTypes : List String := ["GPE", "LOC", "PERSON", "ORG"]

/-- `ContradictionDetector._check_fact_pair`: same entity type required,
then dispatch on the type family. -/
def check_fact_pair (fact1 fact2 : Fact) : Option Contradiction :=
  if fact1.entity_type ≠ fact2.entity_type then none
  else if numericTypes.contains fact1.entity_type then
    check_numeric_contradiction fact1 fact2
  else if fact1.entity_type = "DATE" then
    check_date_contradiction fact1 fact2
  else if entityContradictionTypes.contains fact1.entity_type then
    check_entity_contradiction fact1 fact2
  else none

/-! ## Per-session state

`self.session_facts` is a dictionary from session id to fact list; it is
embedded as a function into optional lists (absent key = `none`).  The
three methods are state transformers; `detect_contradictions` returns the
state alongside its result so that its effect on the store is part of its
meaning. -/

def SessionFacts : Type := String → Option (List Fact)

/-- The store of a fresh detector: no session is tracked. -/
def emptySessions : SessionFacts := fun _ => none

/-- `ContradictionDetector.add_facts`: create the session if absent, then
extend its fact list. -/
def add_facts (st : SessionFacts) (session_id : String) (facts : List Fact) : SessionFacts :=
  fun s => if s = session_id then some (((st session_id).getD []) ++ facts) else st s

/-- `ContradictionDetector.clear_session`: delete the session entry. -/
def clear_session (st : SessionFacts) (session_id : String) : SessionFacts :=
  fun s => if s = session_id then none else st s

/-- `ContradictionDetector.detect_contradictions`: unknown sessions yield
no contradictions; otherwise each new fact is checked against every stored
fact in order.  The method only reads the store, so the returned state is
the input state. -/
def detect_contradictions (st : SessionFacts) (session_id : String)
    (new_facts : List Fact) : SessionFacts × List Contradiction :=
  (st,
    match st session_id with
    | none => []
    | some previous_facts =>
      new_facts.flatMap (fun new_fact =>
        previous_facts.filterMap (fun old_fact => check_fact_pair new_fact old_fact)))

/-! ## ConfidenceScorer

Verified facts reaching the scorer carry a verification flag and a
confidence tier string.  Floats are exact rationals; the two-decimal
display rounding of `round(score, 2)` is embedded as exact rational
rounding to hundredths. -/

structure VerifiedFact where
  entity : String
  entity_type : String
  sentence : String
  verified : Bool
  confidence : String
  wikipedia_url : Option String
  verification_note : String
  wikipedia_title : Option String
deriving DecidableEq

structure ScoreStats where
  total_facts : ℕ
  verified : ℕ
  unverified : ℕ
  unknown : ℕ
  high_confidence : ℕ
  medium_confidence : ℕ
  low_confidence : ℕ
deriving DecidableEq

structure CategorizedFacts where
  verified : List VerifiedFact
  uncertain : List VerifiedFact
  contradicted : List VerifiedFact
deriving DecidableEq

/-- The report of `ConfidenceScorer.score_response`.  The empty-input
branch of the source returns a stats dictionary without the per-tier keys
and no detailed-facts key; here the per-tier counts are zero and the
categorization is `none`. -/
structure ScoreReport where
  overall_confidence : String
  confidence_score : ℚ
  color : String
  emoji : String
  summary : String
  stats : ScoreStats
  detailed_facts : Option CategorizedFacts

/-- Threshold constant from `ConfidenceScorer.__init__`. -/
def HIGH_CONFIDENCE_THRESHOLD : ℚ := 0.8

/-- Threshold constant from `ConfidenceScorer.__init__`. -/
def MEDIUM_CONFIDENCE_THRESHOLD : ℚ := 0.5

/-- `ConfidenceScorer._calculate_stats`. -/
def calculate_stats (verified_facts : List VerifiedFact) : ScoreStats :=
  { total_facts := verified_facts.length
    verified := (verified_facts.filter (fun f => f.verified = true)).length
    unverified := (verified_facts.filter
      (fun f => f.verified = false ∧ f.confidence ≠ "unknown")).length
    unknown := (verified_facts.filter (fun f => f.confidence = "unknown")).length
    high_confidence := (verified_facts.filter (fun f => f.confidence = "high")).length
    medium_confidence := (verified_facts.filter (fun f => f.confidence = "medium")).length
    low_confidence := (verified_facts.filter (fun f => f.confidence = "low")).length }

/-- The per-fact points of `_calculate_confidence_score`: high 1.0,
medium 0.6, low 0.2, anything else 0.0. -/
def tierPoints (confidence : String) : ℚ :=
  if confidence = "high" then 1
  else if confidence = "medium" then 0.6
  else if confidence = "low" then 0.2
  else 0

/-- `ConfidenceScorer._calculate_confidence_score`: average of the per-fact
points over the total count. -/
def calculate_confidence_score (stats : ScoreStats) (verified_facts : List VerifiedFact) : ℚ :=
  if stats.total_facts = 0 then 0
  else (verified_facts.map (fun f => tierPoints f.confidence)).sum / (stats.total_facts : ℚ)

/-- `ConfidenceScorer._determine_confidence_level`, returning the
level, color, emoji triple. -/
def determine_confidence_level (score : ℚ) (stats : ScoreStats) : String × String × String :=
  if (stats.low_confidence : ℚ) > (stats.total_facts : ℚ) / 2 then ("low", "red", "🔴")
  else if score ≥ HIGH_CONFIDENCE_THRESHOLD then ("high", "green", "🟢")
  else if score ≥ MEDIUM_CONFIDENCE_THRESHOLD then ("medium", "yellow", "🟡")
  else ("low", "red", "🔴")

/-- `ConfidenceScorer._generate_summary`. -/
def generate_summary (stats : ScoreStats) (confidence_level : String) : String :=
  if confidence_level = "high" then
    "Highly verified: " ++ toString stats.verified ++ "/" ++ toString stats.total_facts ++
      " facts confirmed by Wikipedia"
  else if confidence_level = "medium" then
    "Partially verified: " ++ toString stats.verified ++ "/" ++ toString stats.total_facts ++
      " facts confirmed, some uncertain"
  else if confidence_level = "low" then
    if stats.unverified > 0 then
      "Low confidence: " ++ toString stats.unverified ++ "/" ++ toString stats.total_facts ++
        " facts could not be verified"
    else "Uncertain: Unable to verify most claims"
  else "No verifiable facts found"

/-- `ConfidenceScorer._categorize_facts`. -/
def categorize_facts (verified_facts : List VerifiedFact) : CategorizedFacts :=
  { verified := verified_facts.filter (fun f => f.verified = true ∧ f.confidence = "high")
    uncertain := verified_facts.filter
      (fun f => f.confidence = "medium" ∨ f.confidence = "unknown")
    contradicted := verified_facts.filter
      (fun f => f.verified = false ∧ f.confidence = "low") }

/-- Exact embedding of the display rounding `round(score, 2)`: round to the
nearest hundredth (the source rounds a binary float; ties are not hit by
the claims considered here). -/
def roundTo2 (q : ℚ) : ℚ := (round (q * 100) : ℤ) / 100

/-- `ConfidenceScorer.score_response`. -/
def score_response (verified_facts : List VerifiedFact) : ScoreReport :=
  if verified_facts = [] then
    { overall_confidence := "unknown"
      confidence_score := 0
      color := "gray"
      emoji := "❓"
      summary := "No verifiable facts found"
      stats := ⟨0, 0, 0, 0, 0, 0, 0⟩
      detailed_facts := none }
  else
    let stats := calculate_stats verified_facts
    let confidence_score := calculate_confidence_score stats verified_facts
    let lce := determine_confidence_level confidence_score stats
    { overall_confidence := lce.1
      confidence_score := roundTo2 confidence_score
      color := lce.2.1
      emoji := lce.2.2
      summary := generate_summary stats lce.1
      stats := stats
      detailed_facts := some (categorize_facts verified_facts) }

/-! ## WikipediaVerifier

The reference source is an oracle from a search title to the outcome of
the lookup: a raised exception carrying a message, a missing page, or a
page with full text, summary, canonical url and title.  `verify_fact`
is total over that oracle, mirroring that the source catches every
exception of the lookup block. -/

inductive WikiOutcome where
  | pageError (msg : String)
  | pageMissing
  | pageData (text summary fullurl title : String)

/-- Greedy star `(?:\s+[A-Z][a-z]+)*` of the capitalized-phrase pattern:
extend with whitespace plus a further capitalized word while possible.
Nothing follows the star in the subject patterns, so no backtracking
occurs; each extension consumes at least two characters, making
`rem.length` sufficient fuel. -/
def capPhraseExt : Nat → List Char → List Char → List Char
  | 0, acc, _ => acc
  | fuel + 1, acc, rem =>
    let ws := rem.takeWhile Char.isWhitespace
    if ws = [] then acc
    else
      match capWordAt (rem.dropWhile Char.isWhitespace) with
      | some (w, rest) => capPhraseExt fuel (acc ++ ws ++ w) rest
      | none => acc

/-- Match `[A-Z][a-z]+(?:\s+[A-Z][a-z]+)*` at the head. -/
def capPhraseAt (l : List Char) : Option (List Char) :=
  (capWordAt l).map (fun p => capPhraseExt p.2.length p.1 p.2)

/-- Leftmost `re.search` scan for a capitalized phrase. -/
def searchCapPhrase : List Char → Option (List Char)
  | [] => none
  | c :: cs =>
    match capPhraseAt (c :: cs) with
    | some w => some w
    | none => searchCapPhrase cs

/-- Match `[Tt]he\s+([A-Z][a-z]+(?:\s+[A-Z][a-z]+)*)` at the head,
returning the captured phrase. -/
def theCapAt : List Char → Option (List Char)
  | t :: h :: e :: rest =>
    if (t = 'T' || t = 't') && h = 'h' && e = 'e' then
      if rest.takeWhile Char.isWhitespace = [] then none
      else capPhraseAt (rest.dropWhile Char.isWhitespace)
    else none
  | _ => none

/-- Leftmost `re.search` scan for the `[Tt]he` capitalized-phrase pattern. -/
def searchTheCap : List Char → Option (List Char)
  | [] => none
  | c :: cs =>
    match theCapAt (c :: cs) with
    | some w => some w
    | none => searchTheCap cs

/-- `WikipediaVerifier._extract_subject_from_sentence`: an anchored
capitalized phrase, else one following `[Tt]he`, else the first
capitalized phrase anywhere. -/
def extract_subject_from_sentence (sentence : String) : Option String :=
  match capPhraseAt sentence.toList with
  | some w => some (String.mk w)
  | none =>
    match searchTheCap sentence.toList with
    | some w => some (String.mk w)
    | none =>
      match searchCapPhrase sentence.toList with
      | some w => some (String.mk w)
      | none => none

/-- The name-like entity types of `_create_search_query`. -/
def queryNameTypes : List String := ["GPE", "LOC", "PERSON", "ORG"]

/-- The value-like entity types of `_create_search_query`. -/
def queryValueTypes : List String :=
  ["DATE", "CARDINAL", "QUANTITY", "MONEY", "MEASUREMENT", "POPULATION", "WEIGHT", "TEMPERATURE"]

/-- `WikipediaVerifier._create_search_query`: name-like types use the
entity itself; value-like types use the subject extracted from the
sentence, or the empty string when none is found; other types fall back
to the entity. -/
def create_search_query (entity entity_type sentence : String) : String :=
  if queryNameTypes.contains entity_type then entity
  else if queryValueTypes.contains entity_type then
    match extract_subject_from_sentence sentence with
    | some subject => subject
    | none => ""
  else entity

/-- The `re.sub` character-class deletion `[,\s]` used on value strings. -/
def removeCommaSpace (s : String) : String :=
  String.mk (s.toList.filter (fun c => !(c = ',' || c.isWhitespace)))

/-- `WikipediaVerifier._check_similar_numbers`: parse the leading number of
the entity; scan the bare numeric tokens of the page text for one within 10
percent relative tolerance.  A zero entity value makes every comparison
raise a division error that the source swallows, so no match is possible
then. -/
def check_similar_numbers (entity text : String) : Bool :=
  match firstNumToken entity.toList with
  | none => false
  | some tok =>
    match parseFloat tok with
    | none => false
    | some value =>
      if value = 0 then false
      else
        (numTokens (pyLower text).toList).any (fun t =>
          match parseFloat t with
          | none => false
          | some text_value => decide (|text_value - value| / value < 0.1))

/-- The result triple of `_verify_against_content`. -/
structure Verdict where
  verified : Bool
  confidence : String
  verification_note : String
deriving DecidableEq

/-- The value-like entity types of `_verify_against_content` (the source
lists them in a different order than the query list). -/
def contentValueTypes : List String :=
  ["DATE", "CARDINAL", "QUANTITY", "MEASUREMENT", "POPULATION", "MONEY", "WEIGHT", "TEMPERATURE"]

/-- The ASCII single-quote character used by the f-string notes. -/
def squote : String := String.mk [Char.ofNat 39]

/-- `WikipediaVerifier._verify_against_content`: presence check for
name-like entities; for value-like entities an exact match after comma and
whitespace deletion, then the 10-percent tolerance scan; anything else is
not verifiable. -/
def verify_against_content (fact : Fact) (page_text page_summary : String) : Verdict :=
  let entity := pyLower fact.entity
  if queryNameTypes.contains fact.entity_type then
    if strContains page_text entity || strContains page_summary entity then
      ⟨true, "high", "Entity found in Wikipedia"⟩
    else ⟨false, "low", "Entity not found in Wikipedia page"⟩
  else if contentValueTypes.contains fact.entity_type then
    let entity_clean := removeCommaSpace entity
    let page_text_clean := removeCommaSpace page_text
    if strContains page_text_clean entity_clean then
      ⟨true, "high", "Value " ++ squote ++ entity ++ squote ++ " found in Wikipedia"⟩
    else if check_similar_numbers entity page_text then
      ⟨true, "medium", "Similar value found in Wikipedia"⟩
    else ⟨false, "low", "Value " ++ squote ++ entity ++ squote ++ " not found in Wikipedia"⟩
  else ⟨false, "unknown", "Could not verify"⟩

/-- `WikipediaVerifier.verify_fact` over the lookup oracle: an invalid or
too-short search key, a missing page, and a raised lookup exception all
degrade to unverified/unknown with an explanatory note; otherwise the
page content is checked with the lowercased text and summary. -/
def verify_fact (wiki : String → WikiOutcome) (fact : Fact) : VerifiedFact :=
  let search_query := create_search_query fact.entity fact.entity_type fact.sentence
  if search_query = "" || (pyStrip search_query).length < 2 then
    { entity := fact.entity, entity_type := fact.entity_type, sentence := fact.sentence
      verified := false, confidence := "unknown", wikipedia_url := none
      verification_note := "Could not create valid search query", wikipedia_title := none }
  else
    match wiki search_query with
    | .pageError msg =>
      { entity := fact.entity, entity_type := fact.entity_type, sentence := fact.sentence
        verified := false, confidence := "unknown", wikipedia_url := none
        verification_note := "Error accessing Wikipedia: " ++ msg, wikipedia_title := none }
    | .pageMissing =>
      { entity := fact.entity, entity_type := fact.entity_type, sentence := fact.sentence
        verified := false, confidence := "unknown", wikipedia_url := none
        verification_note := "No Wikipedia page found for " ++ squote ++ search_query ++ squote
        wikipedia_title := none }
    | .pageData text summary fullurl title =>
      let vr := verify_against_content fact (pyLower text) (pyLower summary)
      { entity := fact.entity, entity_type := fact.entity_type, sentence := fact.sentence
        verified := vr.verified, confidence := vr.confidence
        wikipedia_url := some fullurl, verification_note := vr.verification_note
        wikipedia_title := some title }

/-- `WikipediaVerifier.verify_facts`: verify each fact in order. -/
def verify_facts (wiki : String → WikiOutcome) (facts : List Fact) : List VerifiedFact :=
  facts.map (verify_fact wiki)

/-! ## ResponseFormatter

The renderers substitute each entity at most once using the pattern
`\b` + escaped entity + `\b` and `re.sub(..., count=1)`.  The word
boundary holds between two positions exactly when one side is a word
character and the other is not (positions outside the text count as
non-word).  Substitution scans left to right and splices the replacement
at the first boundary-valid occurrence.  The replacement string is taken
literally, as the source builds it from trusted markup. -/

structure FactSpan where
  text : String
  status : String
  color : String
  emoji : String
  confidence : String
  wikipedia_url : Option String
  note : String
deriving DecidableEq

/-- The `\w` word-character class restricted to ASCII, as the source data
is ASCII text. -/
def isWordChar (c : Char) : Bool := c.isAlphanum || c = '_'

/-- Word-character test of an optional character; out-of-text positions
are non-word. -/
def optWord : Option Char → Bool
  | none => false
  | some c => isWordChar c

/-- A `\b` word boundary between a previous and a next character. -/
def wbBound (prev next : Option Char) : Bool := optWord prev != optWord next

/-- Does `\b ent \b` match at the head of `rest`, where `prev` is the
character just before `rest` in the full text? -/
def wbMatchAt (prev : Option Char) (rest ent : List Char) : Bool :=
  ent.isPrefixOf rest &&
  wbBound prev rest.head? &&
  wbBound (match ent.getLast? with | some c => some c | none => prev)
    ((rest.drop ent.length).head?)

/-- Left-to-right scan of `re.sub(pattern, repl, text, count=1)`: splice
`repl` over the first boundary-valid occurrence of `ent`, or return the
text unchanged. -/
def wbSubAux (prev : Option Char) (rest ent repl : List Char) : List Char :=
  match rest with
  | [] => if wbMatchAt prev [] ent then repl else []
  | c :: cs =>
    if wbMatchAt prev (c :: cs) ent then repl ++ (c :: cs).drop ent.length
    else c :: wbSubAux (some c) cs ent repl

/-- String form of the single word-boundary substitution. -/
def wbSub (text ent repl : String) : String :=
  String.mk (wbSubAux none text.toList ent.toList repl.toList)

/-- Does `\b ent \b` match at offset `i` of `rest` (with `prev` before
`rest`)?  Specification-side index view of the scan of `wbSubAux`. -/
def wbMatchIdx (prev : Option Char) (rest ent : List Char) : Nat → Bool
  | 0 => wbMatchAt prev rest ent
  | i + 1 =>
    match rest with
    | [] => false
    | c :: cs => wbMatchIdx (some c) cs ent i

/-- Stable insertion into a list sorted by descending entity-text length;
equal lengths keep their existing order, matching the stable
`sorted(..., key=len, reverse=True)` of the source. -/
def insertSpanByLen (sp : FactSpan) : List FactSpan → List FactSpan
  | [] => [sp]
  | x :: xs =>
    if sp.text.length ≤ x.text.length then x :: insertSpanByLen sp xs
    else sp :: x :: xs

/-- The stable length sort `sorted(fact_spans, key=len of text, reverse=True)`. -/
def sortSpansByLen (spans : List FactSpan) : List FactSpan :=
  spans.foldl (fun acc sp => insertSpanByLen sp acc) []

/-- The HTML wrapper built for a span by `_create_html_format`. -/
def htmlSpanMarkup (sp : FactSpan) : String :=
  match sp.wikipedia_url with
  | some url =>
    "<span class=\"fact-" ++ sp.color ++ "\" title=\"" ++ sp.note ++ "\" data-url=\"" ++
      url ++ "\">" ++ sp.emoji ++ " " ++ sp.text ++ "</span>"
  | none =>
    "<span class=\"fact-" ++ sp.color ++ "\" title=\"" ++ sp.note ++ "\">" ++
      sp.emoji ++ " " ++ sp.text ++ "</span>"

/-- `ResponseFormatter._create_html_format`: longest entity text first,
each entity replaced at most once by its markup. -/
def create_html_format (text : String) (fact_spans : List FactSpan) : String :=
  (sortSpansByLen fact_spans).foldl
    (fun formatted sp => wbSub formatted sp.text (htmlSpanMarkup sp)) text

/-- `ResponseFormatter._create_markdown_format`: longest entity text
first, each entity marked once with its status emoji. -/
def create_markdown_format (text : String) (fact_spans : List FactSpan) : String :=
  (sortSpansByLen fact_spans).foldl
    (fun formatted sp => wbSub formatted sp.text (sp.emoji ++ " " ++ sp.text)) text

/-! ## Concrete inputs used by the claim instances -/

def tokyoPopulationFact : Fact :=
  ⟨"14 million people", "POPULATION", "Tokyo has 14 million people"⟩

def parisPopulationFact : Fact :=
  ⟨"2 million people", "POPULATION", "Paris has 2 million people"⟩

def tokyo14Fact : Fact := ⟨"14 million", "POPULATION", "Tokyo has 14 million people"⟩

def tokyo38Fact : Fact := ⟨"38 million", "POPULATION", "Tokyo has 38 million people"⟩

def parcel50Fact : Fact := ⟨"50 kg", "WEIGHT", "The parcel weighs 50 kg right now"⟩

def parcel100Fact : Fact := ⟨"100 kg", "WEIGHT", "The parcel weighs 100 kg right now"⟩

def eiffelSpan : FactSpan := ⟨"Eiffel", "unverified", "orange", "❓", "unknown", none, ""⟩

def eiffelTowerSpan : FactSpan := ⟨"Eiffel Tower", "verified", "green", "✅", "high", none, ""⟩

def parisGpeFact : Fact := ⟨"Paris", "GPE", "Paris is nice"⟩

def raisingOracle : String → WikiOutcome := fun _ => WikiOutcome.pageError ("boom")

def highVerifiedFact : VerifiedFact :=
  ⟨"Paris", "GPE", "Paris is a city", true, "high", some ("u"), "Entity found in Wikipedia",
    some ("Paris")⟩

/-! ## Helper lemmas -/

theorem toList_mk (l : List Char) : (String.mk l).toList = l := rfl

/-- Rounding to hundredths stays within the unit interval. -/
theorem roundTo2_mem_unit {q : ℚ} (h0 : 0 ≤ q) (h1 : q ≤ 1) :
    0 ≤ roundTo2 q ∧ roundTo2 q ≤ 1 := by
  unfold roundTo2
  have hl : (0 : ℤ) ≤ round (q * 100) := by
    rw [round_eq]
    have : (0 : ℚ) ≤ q * 100 + 1 / 2 := by nlinarith
    exact_mod_cast Int.floor_nonneg.mpr this
  have hr : round (q * 100) ≤ 100 := by
    rw [round_eq]
    have h : ⌊q * 100 + 1 / 2⌋ ≤ ⌊(100 : ℚ) + 1 / 2⌋ := by
      apply Int.floor_le_floor
      nlinarith
    have h2 : ⌊(100 : ℚ) + 1 / 2⌋ = 100 := by
      rw [Int.floor_eq_iff]
      norm_num
    omega
  constructor
  · positivity
  · rw [div_le_one (by norm_num)]
    exact_mod_cast hr

/-- C7: clearing a session removes its history: a detect call on the
cleared session finds no contradictions, and agrees with a detect call on
a store that never saw the session. -/
theorem clear_then_detect_empty (st : SessionFacts) (session_id : String)
    (new_facts : List Fact) :
    (detect_contradictions (clear_session st session_id) session_id new_facts).2 = [] ∧
    (detect_contradictions (clear_session st session_id) session_id new_facts).2 =
      (detect_contradictions emptySessions session_id new_facts).2 := by
  constructor <;> simp [detect_contradictions, clear_session, emptySessions]

/-- C10: `detect_contradictions` is read-only on the session store: the
state it returns is the state it was given, for every session. -/
theorem detect_contradictions_preserves_state (st : SessionFacts) (session_id : String)
    (new_facts : List Fact) :
    (detect_contradictions st session_id new_facts).1 = st := rfl
theorem tierPoints_nonneg (c : String) : 0 ≤ tierPoints c := by
  unfold tierPoints
  split <;> norm_num
  split <;> norm_num
  split <;> norm_num

theorem tierPoints_le_one (c : String) : tierPoints c ≤ 1 := by
  unfold tierPoints
  split <;> norm_num
  split <;> norm_num
  split <;> norm_num

theorem calculate_confidence_score_mem_unit (stats : ScoreStats)
    (verified_facts : List VerifiedFact) (htot : stats.total_facts = verified_facts.length) :
    0 ≤ calculate_confidence_score stats verified_facts ∧
      calculate_confidence_score stats verified_facts ≤ 1 := by
  unfold calculate_confidence_score
  split
  · norm_num
  · rename_i hne
    have hlen : (0 : ℚ) < (stats.total_facts : ℚ) := by
      have : 0 < stats.total_facts := Nat.pos_of_ne_zero hne
      exact_mod_cast this
    have hs0 : 0 ≤ (verified_facts.map (fun f => tierPoints f.confidence)).sum :=
      List.sum_nonneg (by
        intro a ha
        obtain ⟨f, _, rfl⟩ := List.mem_map.mp ha
        exact tierPoints_nonneg _)
    have hs1 : (verified_facts.map (fun f => tierPoints f.confidence)).sum ≤
        (stats.total_facts : ℚ) := by
      have h := List.sum_le_card_nsmul (verified_facts.map (fun f => tierPoints f.confidence))
        1 (by
          intro a ha
          obtain ⟨f, _, rfl⟩ := List.mem_map.mp ha
          exact tierPoints_le_one _)
      simp only [List.length_map, nsmul_eq_mul, mul_one] at h
      rw [htot]
      exact_mod_cast h
    constructor
    · positivity
    · rw [div_le_one hlen]
      exact hs1

/-- C3: for a non-empty claim list the level decision is, in order:
majority-low forces low regardless of the score; otherwise the score
thresholds 0.8 and 0.5 pick high, medium, low. -/
theorem score_response_level_order (verified_facts : List VerifiedFact)
    (h : verified_facts ≠ []) :
    (score_response verified_facts).overall_confidence =
      (if 2 * (calculate_stats verified_facts).low_confidence >
          (calculate_stats verified_facts).total_facts then "low"
       else if calculate_confidence_score (calculate_stats verified_facts) verified_facts ≥
          (0.8 : ℚ) then "high"
       else if calculate_confidence_score (calculate_stats verified_facts) verified_facts ≥
          (0.5 : ℚ) then "medium"
       else "low") := by
  unfold score_response
  rw [if_neg h]
  dsimp only
  unfold determine_confidence_level HIGH_CONFIDENCE_THRESHOLD MEDIUM_CONFIDENCE_THRESHOLD
  have hcond : (((calculate_stats verified_facts).low_confidence : ℚ) >
      ((calculate_stats verified_facts).total_facts : ℚ) / 2) ↔
      (2 * (calculate_stats verified_facts).low_confidence >
        (calculate_stats verified_facts).total_facts) := by
    rw [gt_iff_lt, div_lt_iff₀ (by norm_num : (0 : ℚ) < 2)]
    constructor
    · intro hq
      have : (calculate_stats verified_facts).total_facts <
          (calculate_stats verified_facts).low_confidence * 2 := by exact_mod_cast hq
      omega
    · intro hn
      have : (calculate_stats verified_facts).total_facts <
          (calculate_stats verified_facts).low_confidence * 2 := by omega
      exact_mod_cast this
  split
  · rename_i hq
    rw [if_pos (hcond.mp hq)]
  · rename_i hq
    rw [if_neg (fun hx => hq (hcond.mpr hx))]
    split
    · rfl
    · split <;> rfl

theorem score_response_level_order_witness :
    (score_response [highVerifiedFact]).overall_confidence = "high" := by
  rw [score_response_level_order [highVerifiedFact] (by simp)]
  rw [if_neg (by decide)]
  have hs : calculate_confidence_score (calculate_stats [highVerifiedFact])
      [highVerifiedFact] = 1 := by
    unfold calculate_confidence_score
    rw [if_neg (by decide)]
    rw [show (calculate_stats [highVerifiedFact]).total_facts = 1 from by decide]
    simp [tierPoints, highVerifiedFact]
  rw [if_pos (by rw [hs]; norm_num)]

/-- C4: the reported confidence score always lies in `[0, 1]`; it is the
rounded average of the fixed tier weights (high 1.0, medium 0.6, low 0.2,
unknown 0.0); the empty list reports score `0.0` at level `unknown`. -/
theorem score_response_score_in_unit :
    (∀ verified_facts : List VerifiedFact,
      0 ≤ (score_response verified_facts).confidence_score ∧
      (score_response verified_facts).confidence_score ≤ 1) ∧
    ((score_response []).confidence_score = 0 ∧
      (score_response []).overall_confidence = "unknown") ∧
    (tierPoints ("high") = 1 ∧ tierPoints ("medium") = 0.6 ∧ tierPoints ("low") = 0.2 ∧
      tierPoints ("unknown") = 0) ∧
    (∀ verified_facts : List VerifiedFact, verified_facts ≠ [] →
      (score_response verified_facts).confidence_score =
        roundTo2 ((verified_facts.map (fun f => tierPoints f.confidence)).sum /
          (verified_facts.length : ℚ))) := by
  refine ⟨?_, ⟨?_, ?_⟩, ⟨?_, ?_, ?_, ?_⟩, ?_⟩
  · intro verified_facts
    by_cases hf : verified_facts = []
    · subst hf
      simp [score_response]
    · unfold score_response
      rw [if_neg hf]
      dsimp only
      obtain ⟨h0, h1⟩ := calculate_confidence_score_mem_unit (calculate_stats verified_facts)
        verified_facts rfl
      exact roundTo2_mem_unit h0 h1
  · simp [score_response]
  · simp [score_response]
  · simp [tierPoints]
  · simp [tierPoints]
  · simp [tierPoints]
  · simp [tierPoints]
  · intro verified_facts hf
    unfold score_response
    rw [if_neg hf]
    dsimp only
    unfold calculate_confidence_score
    rw [if_neg (by simpa [calculate_stats] using hf)]
    rfl

theorem score_response_score_in_unit_witness :
    (score_response [highVerifiedFact]).confidence_score =
      roundTo2 ((([highVerifiedFact].map (fun f => tierPoints f.confidence)).sum) /
        (([highVerifiedFact] : List VerifiedFact).length : ℚ)) :=
  score_response_score_in_unit.2.2.2 [highVerifiedFact] (by simp)

theorem mk_toList (s : String) : String.mk s.toList = s := rfl

theorem wbSubAux_first_match (ent repl : List Char) :
    ∀ (rest : List Char) (prev : Option Char),
      (wbSubAux prev rest ent repl = rest ∧ ∀ i, wbMatchIdx prev rest ent i = false) ∨
      ∃ i, wbMatchIdx prev rest ent i = true ∧
        (∀ j, j < i → wbMatchIdx prev rest ent j = false) ∧
        wbSubAux prev rest ent repl = rest.take i ++ repl ++ rest.drop (i + ent.length) := by
  intro rest
  induction rest with
  | nil =>
    intro prev
    by_cases h : wbMatchAt prev [] ent = true
    · right
      refine ⟨0, h, fun j hj => absurd hj (Nat.not_lt_zero j), ?_⟩
      simp [wbSubAux, h]
    · left
      constructor
      · simp [wbSubAux, h]
      · intro i
        cases i with
        | zero => simpa [wbMatchIdx] using h
        | succ n => simp [wbMatchIdx]
  | cons c cs ih =>
    intro prev
    by_cases h : wbMatchAt prev (c :: cs) ent = true
    · right
      refine ⟨0, h, fun j hj => absurd hj (Nat.not_lt_zero j), ?_⟩
      simp [wbSubAux, h]
    · rcases ih (some c) with ⟨heq, hnone⟩ | ⟨i, hm, hmin, heq⟩
      · left
        constructor
        · simp [wbSubAux, h, heq]
        · intro i
          cases i with
          | zero => simpa [wbMatchIdx] using h
          | succ n => simpa [wbMatchIdx] using hnone n
      · right
        refine ⟨i + 1, ?_, ?_, ?_⟩
        · simpa [wbMatchIdx] using hm
        · intro j hj
          cases j with
          | zero => simpa [wbMatchIdx] using h
          | succ k => simpa [wbMatchIdx] using hmin k (by omega)
        · have hidx : i + 1 + ent.length = (i + ent.length) + 1 := by omega
          simp [wbSubAux, h, heq, hidx, List.take_succ_cons, List.drop_succ_cons]

theorem mem_insertSpanByLen {sp x : FactSpan} :
    ∀ {l : List FactSpan}, x ∈ insertSpanByLen sp l → x = sp ∨ x ∈ l := by
  intro l
  induction l with
  | nil => intro h; simpa [insertSpanByLen] using h
  | cons y ys ih =>
    intro h
    unfold insertSpanByLen at h
    by_cases hc : sp.text.length ≤ y.text.length
    · rw [if_pos hc] at h
      rcases List.mem_cons.mp h with h1 | h2
      · exact Or.inr (List.mem_cons.mpr (Or.inl h1))
      · rcases ih h2 with h3 | h4
        · exact Or.inl h3
        · exact Or.inr (List.mem_cons.mpr (Or.inr h4))
    · rw [if_neg hc] at h
      rcases List.mem_cons.mp h with h1 | h2
      · exact Or.inl h1
      · exact Or.inr h2

theorem pairwise_insertSpanByLen (sp : FactSpan) :
    ∀ (l : List FactSpan),
      l.Pairwise (fun a b => b.text.length ≤ a.text.length) →
      (insertSpanByLen sp l).Pairwise (fun a b => b.text.length ≤ a.text.length) := by
  intro l
  induction l with
  | nil => intro _; simp [insertSpanByLen]
  | cons y ys ih =>
    intro h
    rcases List.pairwise_cons.mp h with ⟨hy, hys⟩
    unfold insertSpanByLen
    by_cases hc : sp.text.length ≤ y.text.length
    · rw [if_pos hc]
      refine List.pairwise_cons.mpr ⟨?_, ih hys⟩
      intro b hb
      rcases mem_insertSpanByLen hb with rfl | hbys
      · exact hc
      · exact hy b hbys
    · rw [if_neg hc]
      refine List.pairwise_cons.mpr ⟨?_, h⟩
      intro b hb
      rcases List.mem_cons.mp hb with rfl | hbys
      · omega
      · exact le_trans (hy b hbys) (by omega)

theorem sortSpansByLen_pairwise_aux :
    ∀ (spans acc : List FactSpan),
      acc.Pairwise (fun a b => b.text.length ≤ a.text.length) →
      (spans.foldl (fun acc sp => insertSpanByLen sp acc) acc).Pairwise
        (fun a b => b.text.length ≤ a.text.length) := by
  intro spans
  induction spans with
  | nil => intro acc h; simpa using h
  | cons sp sps ih =>
    intro acc h
    exact ih (insertSpanByLen sp acc) (pairwise_insertSpanByLen sp acc h)

/-- C8: the renderers process entities longest first (the sorted span list
is length-descending); a single entity substitution either leaves the text
unchanged (no word-boundary match) or splices the replacement over exactly
the first word-boundary occurrence, so each entity is wrapped or marked at
most once; concretely, the longer entity Eiffel Tower is matched whole
before the shorter overlapping Eiffel. -/
theorem formatter_longest_first_single_sub :
    (∀ fact_spans : List FactSpan,
      (sortSpansByLen fact_spans).Pairwise (fun a b => b.text.length ≤ a.text.length)) ∧
    (∀ text ent repl : String,
      wbSub text ent repl = text ∨
      ∃ i, wbMatchIdx none text.toList ent.toList i = true ∧
        ((List.range i).all (fun j => !wbMatchIdx none text.toList ent.toList j)) = true ∧
        (wbSub text ent repl).toList =
          text.toList.take i ++ repl.toList ++ text.toList.drop (i + ent.toList.length)) ∧
    create_markdown_format ("The Eiffel Tower opened in 1889") [eiffelSpan, eiffelTowerSpan] =
      "The ✅ ❓ Eiffel Tower opened in 1889" := by
  refine ⟨?_, ?_, ?_⟩
  · intro fact_spans
    exact sortSpansByLen_pairwise_aux fact_spans [] (List.Pairwise.nil)
  · intro text ent repl
    rcases wbSubAux_first_match ent.toList repl.toList text.toList none with ⟨heq, _⟩ |
      ⟨i, hm, hmin, heq⟩
    · left
      unfold wbSub
      rw [heq, mk_toList]
    · right
      refine ⟨i, hm, ?_, heq⟩
      simp only [List.all_eq_true, List.mem_range]
      intro j hj
      have h := hmin j hj
      simp only [h]
      rfl
  · decide

theorem parseFloat_intToken (tok : List Char)
    (h1 : ((tok.filter (fun c => c = '.')).length ≤ 1 && tok.any Char.isDigit) = true)
    (h2 : tok.takeWhile (fun c => c ≠ '.') = tok)
    (h3 : (tok.dropWhile (fun c => c ≠ '.')).drop 1 = []) :
    parseFloat tok = some (digitsToNat tok : ℚ) := by
  unfold parseFloat
  rw [if_pos h1, h2, h3]
  norm_num [digitsToNat]

/-- Evaluation rule for `extract_number` on a text whose multiplier test
hits `million` and whose leading number token is a plain integer. -/
theorem extract_number_eval_million (text : String) (tok : List Char)
    (hb : isSubstr ("billion".toList) ((pyLower text).toList) = false)
    (hm : isSubstr ("million".toList) ((pyLower text).toList) = true)
    (ht : firstNumToken (text.toList.filter (fun c => c ≠ ',')) = some tok)
    (h1 : ((tok.filter (fun c => c = '.')).length ≤ 1 && tok.any Char.isDigit) = true)
    (h2 : tok.takeWhile (fun c => c ≠ '.') = tok)
    (h3 : (tok.dropWhile (fun c => c ≠ '.')).drop 1 = []) :
    extract_number text = some ((digitsToNat tok : ℚ) * 1000000) := by
  simp only [extract_number]
  rw [hb, hm, ht]
  dsimp only
  rw [parseFloat_intToken tok h1 h2 h3]
  norm_num

/-- Evaluation rule for `extract_number` on a text with no multiplier token
and a plain integer leading number. -/
theorem extract_number_eval_plain (text : String) (tok : List Char)
    (hb : isSubstr ("billion".toList) ((pyLower text).toList) = false)
    (hm : isSubstr ("million".toList) ((pyLower text).toList) = false)
    (hth : isSubstr ("thousand".toList) ((pyLower text).toList) = false)
    (ht : firstNumToken (text.toList.filter (fun c => c ≠ ',')) = some tok)
    (h1 : ((tok.filter (fun c => c = '.')).length ≤ 1 && tok.any Char.isDigit) = true)
    (h2 : tok.takeWhile (fun c => c ≠ '.') = tok)
    (h3 : (tok.dropWhile (fun c => c ≠ '.')).drop 1 = []) :
    extract_number text = some (digitsToNat tok : ℚ) := by
  simp only [extract_number]
  rw [hb, hm, hth, ht]
  dsimp only
  rw [parseFloat_intToken tok h1 h2 h3]
  norm_num

theorem extract_number_14mp : extract_number ("14 million people") = some 14000000 := by
  rw [extract_number_eval_million ("14 million people") ("14".toList) (by decide) (by decide)
    (by decide) (by decide) (by decide) (by decide)]
  rw [show digitsToNat ("14".toList) = 14 from by decide]
  norm_num

theorem extract_number_2mp : extract_number ("2 million people") = some 2000000 := by
  rw [extract_number_eval_million ("2 million people") ("2".toList) (by decide) (by decide)
    (by decide) (by decide) (by decide) (by decide)]
  rw [show digitsToNat ("2".toList) = 2 from by decide]
  norm_num

theorem extract_number_14m : extract_number ("14 million") = some 14000000 := by
  rw [extract_number_eval_million ("14 million") ("14".toList) (by decide) (by decide)
    (by decide) (by decide) (by decide) (by decide)]
  rw [show digitsToNat ("14".toList) = 14 from by decide]
  norm_num

theorem extract_number_38m : extract_number ("38 million") = some 38000000 := by
  rw [extract_number_eval_million ("38 million") ("38".toList) (by decide) (by decide)
    (by decide) (by decide) (by decide) (by decide)]
  rw [show digitsToNat ("38".toList) = 38 from by decide]
  norm_num

theorem extract_number_50kg : extract_number ("50 kg") = some 50 := by
  rw [extract_number_eval_plain ("50 kg") ("50".toList) (by decide) (by decide) (by decide)
    (by decide) (by decide) (by decide) (by decide)]
  rw [show digitsToNat ("50".toList) = 50 from by decide]
  norm_num

theorem extract_number_100kg : extract_number ("100 kg") = some 100 := by
  rw [extract_number_eval_plain ("100 kg") ("100".toList) (by decide) (by decide) (by decide)
    (by decide) (by decide) (by decide) (by decide)]
  rw [show digitsToNat ("100".toList) = 100 from by decide]
  norm_num

/-- Evaluation rule for the numeric check once both parses and the subject
heuristic are known. -/
theorem check_numeric_flags_iff (fact1 fact2 : Fact) (a b : ℚ)
    (h1 : extract_number fact1.entity = some a)
    (h2 : extract_number fact2.entity = some b)
    (hs : same_subject fact1.sentence fact2.sentence = true) :
    check_numeric_contradiction fact1 fact2 =
      (if 20 < |a - b| / max a b * 100 then
        some { type := "numeric_contradiction"
               severity := if 50 < |a - b| / max a b * 100 then "high" else "medium"
               previous_claim := fact2.sentence
               current_claim := fact1.sentence
               previous_value := some fact2.entity
               current_value := some fact1.entity
               difference := some (|a - b| / max a b * 100)
               message := "Contradiction detected: Different values for the same claim" }
       else none) := by
  unfold check_numeric_contradiction
  rw [h1, h2]
  dsimp only
  rw [hs]
  rw [if_neg (by simp)]

theorem check_pair_paris_tokyo :
    check_fact_pair parisPopulationFact tokyoPopulationFact =
      some { type := "numeric_contradiction", severity := "high"
             previous_claim := "Tokyo has 14 million people"
             current_claim := "Paris has 2 million people"
             previous_value := some ("14 million people")
             current_value := some ("2 million people")
             difference := some (600 / 7)
             message := "Contradiction detected: Different values for the same claim" } := by
  unfold check_fact_pair
  rw [if_neg (by decide : ¬(parisPopulationFact.entity_type ≠ tokyoPopulationFact.entity_type))]
  rw [if_pos (by decide : numericTypes.contains parisPopulationFact.entity_type = true)]
  rw [check_numeric_flags_iff parisPopulationFact tokyoPopulationFact 2000000 14000000
    extract_number_2mp extract_number_14mp (by decide)]
  have hd : |(2000000 : ℚ) - 14000000| / max (2000000 : ℚ) 14000000 * 100 = 600 / 7 := by
    rw [abs_of_nonpos (by norm_num), max_eq_right (by norm_num : (2000000 : ℚ) ≤ 14000000)]
    norm_num
  rw [hd, if_pos (by norm_num : (20 : ℚ) < 600 / 7),
    if_pos (by norm_num : (50 : ℚ) < 600 / 7)]
  rfl

theorem check_pair_tokyo38_tokyo14 :
    check_fact_pair tokyo38Fact tokyo14Fact =
      some { type := "numeric_contradiction", severity := "high"
             previous_claim := "Tokyo has 14 million people"
             current_claim := "Tokyo has 38 million people"
             previous_value := some ("14 million")
             current_value := some ("38 million")
             difference := some (1200 / 19)
             message := "Contradiction detected: Different values for the same claim" } := by
  unfold check_fact_pair
  rw [if_neg (by decide : ¬(tokyo38Fact.entity_type ≠ tokyo14Fact.entity_type))]
  rw [if_pos (by decide : numericTypes.contains tokyo38Fact.entity_type = true)]
  rw [check_numeric_flags_iff tokyo38Fact tokyo14Fact 38000000 14000000
    extract_number_38m extract_number_14m (by decide)]
  have hd : |(38000000 : ℚ) - 14000000| / max (38000000 : ℚ) 14000000 * 100 = 1200 / 19 := by
    rw [abs_of_nonneg (by norm_num), max_eq_left (by norm_num : (14000000 : ℚ) ≤ 38000000)]
    norm_num
  rw [hd, if_pos (by norm_num : (20 : ℚ) < 1200 / 19),
    if_pos (by norm_num : (50 : ℚ) < 1200 / 19)]
  rfl

/-- C1 counterexample: with the Tokyo population claim in history, the
Paris population claim is NOT contradiction-free: the detector returns a
list of length one, not the empty list the claim states — the subject
heuristic passes, since has, million and people are 3 shared leading
words. -/
theorem detect_tokyo_paris_one_found :
    ((detect_contradictions (add_facts emptySessions ("s") [tokyoPopulationFact]) "s"
      [parisPopulationFact]).2).length = 1 := by
  simp [detect_contradictions, add_facts, emptySessions, check_pair_paris_tokyo]

/-- C1 (amended): the two population claims DO produce exactly one numeric
contradiction of severity high — the subject-overlap heuristic passes on
the shared words has, million and people, and the relative difference is
600/7 percent, above 50. -/
theorem detect_tokyo_paris_one_contradiction :
    (detect_contradictions (add_facts emptySessions ("s") [tokyoPopulationFact]) "s"
      [parisPopulationFact]).2 =
      [{ type := "numeric_contradiction", severity := "high"
         previous_claim := "Tokyo has 14 million people"
         current_claim := "Paris has 2 million people"
         previous_value := some ("14 million people")
         current_value := some ("2 million people")
         difference := some (600 / 7)
         message := "Contradiction detected: Different values for the same claim" }] := by
  simp [detect_contradictions, add_facts, emptySessions, check_pair_paris_tokyo]

/-- C2 counterexample: two same-subject WEIGHT claims whose values parse
and differ by 100 percent produce no contradiction at all, because WEIGHT
is not in the numeric dispatch list of `_check_fact_pair`. -/
theorem weight_pair_detects_nothing :
    extract_number parcel100Fact.entity = some 100 ∧
    extract_number parcel50Fact.entity = some 50 ∧
    same_subject parcel100Fact.sentence parcel50Fact.sentence = true ∧
    (20 : ℚ) < |(100 : ℚ) - 50| / max (100 : ℚ) 50 * 100 ∧
    (detect_contradictions (add_facts emptySessions ("s") [parcel50Fact]) "s"
      [parcel100Fact]).2 = [] := by
  refine ⟨extract_number_100kg, extract_number_50kg, by decide, ?_, ?_⟩
  · rw [abs_of_nonneg (by norm_num), max_eq_left (by norm_num : (50 : ℚ) ≤ 100)]
    norm_num
  · have hp : check_fact_pair parcel100Fact parcel50Fact = none := by
      unfold check_fact_pair
      rw [if_neg (by decide : ¬(parcel100Fact.entity_type ≠ parcel50Fact.entity_type))]
      rw [if_neg (by decide : ¬(numericTypes.contains parcel100Fact.entity_type = true))]
      rw [if_neg (by decide : ¬(parcel100Fact.entity_type = "DATE"))]
      rw [if_neg (by decide :
        ¬(entityContradictionTypes.contains parcel100Fact.entity_type = true))]
    simp [detect_contradictions, add_facts, emptySessions, hp]

/-- C2 (amended): the numeric rule is dispatched only for the entity types
CARDINAL, QUANTITY, MONEY, MEASUREMENT and POPULATION; a pair whose shared
type is WEIGHT or TEMPERATURE yields no contradiction of any kind; within
the numeric rule a pair is skipped when either magnitude fails to parse. -/
theorem check_fact_pair_numeric_family (fact1 fact2 : Fact)
    (he : fact1.entity_type = fact2.entity_type) :
    ((fact1.entity_type = "WEIGHT" ∨ fact1.entity_type = "TEMPERATURE") →
      check_fact_pair fact1 fact2 = none) ∧
    (numericTypes.contains fact1.entity_type = true →
      check_fact_pair fact1 fact2 = check_numeric_contradiction fact1 fact2) ∧
    ((extract_number fact1.entity = none ∨ extract_number fact2.entity = none) →
      check_numeric_contradiction fact1 fact2 = none) := by
  refine ⟨?_, ?_, ?_⟩
  · intro h
    unfold check_fact_pair
    rw [if_neg (by simp [he])]
    rcases h with h | h <;>
      rw [h] <;>
      rw [if_neg (by decide), if_neg (by decide), if_neg (by decide)]
  · intro h
    unfold check_fact_pair
    rw [if_neg (by simp [he]), if_pos h]
  · intro h
    unfold check_numeric_contradiction
    rcases h with h | h
    · rw [h]
    · rw [h]
      cases extract_number fact1.entity <;> rfl

theorem check_fact_pair_numeric_family_witness :
    check_fact_pair parcel100Fact parcel50Fact = none :=
  (check_fact_pair_numeric_family parcel100Fact parcel50Fact rfl).1 (Or.inl rfl)

/-- C6: for same-type numeric pairs with both magnitudes parsed and the
subject heuristic passed, a numeric contradiction is flagged exactly when
the relative difference exceeds 20 percent, with severity high above 50
percent and medium otherwise, carrying the percent difference; the Tokyo
14-vs-38-million instance yields exactly one numeric contradiction of
severity high. -/
theorem numeric_threshold_and_severity :
    (∀ (fact1 fact2 : Fact) (a b : ℚ),
      extract_number fact1.entity = some a →
      extract_number fact2.entity = some b →
      same_subject fact1.sentence fact2.sentence = true →
      check_numeric_contradiction fact1 fact2 =
        (if 20 < |a - b| / max a b * 100 then
          some { type := "numeric_contradiction"
                 severity := if 50 < |a - b| / max a b * 100 then "high" else "medium"
                 previous_claim := fact2.sentence
                 current_claim := fact1.sentence
                 previous_value := some fact2.entity
                 current_value := some fact1.entity
                 difference := some (|a - b| / max a b * 100)
                 message := "Contradiction detected: Different values for the same claim" }
         else none)) ∧
    (detect_contradictions (add_facts emptySessions ("s") [tokyo14Fact]) "s"
      [tokyo38Fact]).2 =
      [{ type := "numeric_contradiction", severity := "high"
         previous_claim := "Tokyo has 14 million people"
         current_claim := "Tokyo has 38 million people"
         previous_value := some ("14 million")
         current_value := some ("38 million")
         difference := some (1200 / 19)
         message := "Contradiction detected: Different values for the same claim" }] := by
  constructor
  · intro fact1 fact2 a b h1 h2 hs
    exact check_numeric_flags_iff fact1 fact2 a b h1 h2 hs
  · simp [detect_contradictions, add_facts, emptySessions, check_pair_tokyo38_tokyo14]

theorem numeric_threshold_and_severity_witness :
    check_numeric_contradiction tokyo38Fact tokyo14Fact =
      some { type := "numeric_contradiction", severity := "high"
             previous_claim := "Tokyo has 14 million people"
             current_claim := "Tokyo has 38 million people"
             previous_value := some ("14 million")
             current_value := some ("38 million")
             difference := some (1200 / 19)
             message := "Contradiction detected: Different values for the same claim" } := by
  rw [numeric_threshold_and_severity.1 tokyo38Fact tokyo14Fact 38000000 14000000
    extract_number_38m extract_number_14m (by decide)]
  have hd : |(38000000 : ℚ) - 14000000| / max (38000000 : ℚ) 14000000 * 100 = 1200 / 19 := by
    rw [abs_of_nonneg (by norm_num), max_eq_left (by norm_num : (14000000 : ℚ) ≤ 38000000)]
    norm_num
  rw [hd, if_pos (by norm_num : (20 : ℚ) < 1200 / 19),
    if_pos (by norm_num : (50 : ℚ) < 1200 / 19)]
  rfl

/-- Coupling between the verdict flag and tier in `_verify_against_content`:
verified verdicts carry tier high or medium, unverified ones low or
unknown. -/
theorem verify_against_content_coupling (fact : Fact) (page_text page_summary : String) :
    ((verify_against_content fact page_text page_summary).verified = true ∧
      ((verify_against_content fact page_text page_summary).confidence = "high" ∨
        (verify_against_content fact page_text page_summary).confidence = "medium")) ∨
    ((verify_against_content fact page_text page_summary).verified = false ∧
      ((verify_against_content fact page_text page_summary).confidence = "low" ∨
        (verify_against_content fact page_text page_summary).confidence = "unknown")) := by
  unfold verify_against_content
  dsimp only
  split
  · split
    · exact Or.inl ⟨rfl, Or.inl rfl⟩
    · exact Or.inr ⟨rfl, Or.inl rfl⟩
  · split
    · split
      · exact Or.inl ⟨rfl, Or.inl rfl⟩
      · split
        · exact Or.inl ⟨rfl, Or.inr rfl⟩
        · exact Or.inr ⟨rfl, Or.inl rfl⟩
    · exact Or.inr ⟨rfl, Or.inr rfl⟩

/-- C5: `verify_fact` is a total function of the claim and the lookup
oracle, and each failure path — an empty or too-short search key, a
missing page, or a raised lookup exception — yields verified false with
tier unknown and an explanatory note; the exception message is recorded
in the note. -/
theorem verify_fact_failure_paths (wiki : String → WikiOutcome) (fact : Fact) :
    ((create_search_query fact.entity fact.entity_type fact.sentence = "" ∨
        (pyStrip (create_search_query fact.entity fact.entity_type fact.sentence)).length < 2) →
      (verify_fact wiki fact).verified = false ∧
      (verify_fact wiki fact).confidence = "unknown" ∧
      (verify_fact wiki fact).verification_note = "Could not create valid search query") ∧
    (∀ msg : String,
      ¬(create_search_query fact.entity fact.entity_type fact.sentence = "" ∨
        (pyStrip (create_search_query fact.entity fact.entity_type fact.sentence)).length < 2) →
      wiki (create_search_query fact.entity fact.entity_type fact.sentence) =
        WikiOutcome.pageError msg →
      (verify_fact wiki fact).verified = false ∧
      (verify_fact wiki fact).confidence = "unknown" ∧
      (verify_fact wiki fact).verification_note = "Error accessing Wikipedia: " ++ msg) ∧
    (¬(create_search_query fact.entity fact.entity_type fact.sentence = "" ∨
        (pyStrip (create_search_query fact.entity fact.entity_type fact.sentence)).length < 2) →
      wiki (create_search_query fact.entity fact.entity_type fact.sentence) =
        WikiOutcome.pageMissing →
      (verify_fact wiki fact).verified = false ∧
      (verify_fact wiki fact).confidence = "unknown" ∧
      (verify_fact wiki fact).verification_note =
        "No Wikipedia page found for " ++ squote ++
          create_search_query fact.entity fact.entity_type fact.sentence ++ squote) := by
  refine ⟨?_, ?_, ?_⟩
  · intro h
    unfold verify_fact
    rw [if_pos (by rcases h with h | h <;> simp [h])]
    exact ⟨rfl, rfl, rfl⟩
  · intro msg hns hw
    rw [not_or] at hns
    unfold verify_fact
    rw [if_neg (by simp [hns.1, hns.2]), hw]
    exact ⟨rfl, rfl, rfl⟩
  · intro hns hw
    rw [not_or] at hns
    unfold verify_fact
    rw [if_neg (by simp [hns.1, hns.2]), hw]
    exact ⟨rfl, rfl, rfl⟩

theorem verify_fact_failure_paths_witness :
    (verify_fact raisingOracle parisGpeFact).verified = false ∧
    (verify_fact raisingOracle parisGpeFact).confidence = "unknown" ∧
    (verify_fact raisingOracle parisGpeFact).verification_note =
      "Error accessing Wikipedia: boom" :=
  (verify_fact_failure_paths raisingOracle parisGpeFact).2.1 ("boom") (by decide) rfl

/-- C9: every verifier result couples the flag and the tier: verified
results carry tier high or medium, unverified ones low or unknown, on
every code path of `verify_fact`. -/
theorem verify_fact_tier_coupling (wiki : String → WikiOutcome) (fact : Fact) :
    ((verify_fact wiki fact).verified = true ∧
      ((verify_fact wiki fact).confidence = "high" ∨
        (verify_fact wiki fact).confidence = "medium")) ∨
    ((verify_fact wiki fact).verified = false ∧
      ((verify_fact wiki fact).confidence = "low" ∨
        (verify_fact wiki fact).confidence = "unknown")) := by
  unfold verify_fact
  dsimp only
  split
  · exact Or.inr ⟨rfl, Or.inr rfl⟩
  · split
    · exact Or.inr ⟨rfl, Or.inr rfl⟩
    · exact Or.inr ⟨rfl, Or.inr rfl⟩
    · dsimp only
      exact verify_against_content_coupling _ _ _
